import Mathlib

/-
Shallow embedding of the compute-facade layer of
cpp/src/arrow/compute/api_scalar.cc.

Each public facade function is embedded as a pure Lean function that either
fails locally with a Status (the InvalidArgument paths raised before any
delegation) or produces a RegCall: the exact call descriptor (function name,
ordered argument list, bound options) handed to the external registry via
CallFunction.  The external registry itself is not part of src/, so
delegation is represented by the descriptor; runWith feeds a descriptor to
an arbitrary registry, modelling the fact that the C++ facade returns the
value of CallFunction unchanged.
-/

namespace ArrowCompute

/-- Type ids, following arrow::Type::type for the type kinds the facade
touches.  Only the DICTIONARY id is inspected by the code under
verification. -/
inductive TypeId where
  | BOOL
  | INT8
  | INT16
  | INT32
  | INT64
  | FLOAT
  | DOUBLE
  | STRING
  | DICTIONARY
deriving DecidableEq

/-- Logical data types (arrow::DataType).  A dictionary type carries its
index type, its value type and the ordered flag, as arrow::DictionaryType
does. -/
inductive DataType where
  | boolean
  | int8
  | int16
  | int32
  | int64
  | float32
  | float64
  | utf8
  | dictionary (index_type : DataType) (value_type : DataType) (ordered : Bool)
deriving DecidableEq

/-- Embedding of DataType::id(). -/
def DataType.id : DataType → TypeId
  | .boolean => .BOOL
  | .int8 => .INT8
  | .int16 => .INT16
  | .int32 => .INT32
  | .int64 => .INT64
  | .float32 => .FLOAT
  | .float64 => .DOUBLE
  | .utf8 => .STRING
  | .dictionary _ _ _ => .DICTIONARY

/-- Embedding of DictionaryType::value_type().  In the source this accessor
is reached through checked_pointer_cast after the id() == DICTIONARY guard,
so the non-dictionary branch below is never taken by the embedded code. -/
def DataType.value_type : DataType → DataType
  | .dictionary _ v _ => v
  | t => t

/-- Embedding of DataType::Equals: structural type equality. -/
def DataType.Equals (a b : DataType) : Bool :=
  a = b

/-- Embedding of DataType::ToString, giving each type its canonical Arrow
name; a dictionary type prints its value and index types. -/
def DataType.ToString : DataType → String
  | .boolean => "bool"
  | .int8 => "int8"
  | .int16 => "int16"
  | .int32 => "int32"
  | .int64 => "int64"
  | .float32 => "float"
  | .float64 => "double"
  | .utf8 => "string"
  | .dictionary i v o =>
      "dictionary<values=" ++ v.ToString ++ ", indices=" ++ i.ToString ++
        ", ordered=" ++ (if o then "1" else "0") ++ ">"

/-- Kinds of Datum (arrow::Datum::Kind). -/
inductive DatumKind where
  | NONE
  | SCALAR
  | ARRAY
  | CHUNKED_ARRAY
  | RECORD_BATCH
  | TABLE
  | COLLECTION
deriving DecidableEq

/-- Value container (arrow::Datum): the facade only reads its kind, its
logical type and its length, so the embedding keeps exactly those.  The
length field is the value of Datum::length() and is only consulted after
the is_arraylike guard. -/
structure Datum where
  kind : DatumKind
  type : DataType
  length : Nat
deriving DecidableEq

/-- Embedding of Datum::is_arraylike(): true for Array and ChunkedArray. -/
def Datum.is_arraylike (d : Datum) : Bool :=
  d.kind = DatumKind.ARRAY ∨ d.kind = DatumKind.CHUNKED_ARRAY

/-- Arithmetic options (arrow::compute::ArithmeticOptions). -/
structure ArithmeticOptions where
  check_overflow : Bool
deriving DecidableEq

/-- Set-lookup options (arrow::compute::SetLookupOptions). -/
structure SetLookupOptions where
  value_set : Datum
  skip_nulls : Bool
deriving DecidableEq

/-- Modelled from the spec: the SetLookupOptions constructor taking only a
value set (declared in api_scalar.h, which is not under src/) defaults the
remaining field; the spec calls skip-nulls an optional policy and the
convenience overloads construct the record with defaulted fields, the
default being the do-not-skip policy. -/
def SetLookupOptions.ofValueSet (value_set : Datum) : SetLookupOptions :=
  ⟨value_set, false⟩

/-- Comparison operators (arrow::compute::CompareOperator), a closed
six-element enumeration. -/
inductive CompareOperator where
  | EQUAL
  | NOT_EQUAL
  | GREATER
  | GREATER_EQUAL
  | LESS
  | LESS_EQUAL
deriving DecidableEq

/-- Comparison options (arrow::compute::CompareOptions). -/
structure CompareOptions where
  op : CompareOperator
deriving DecidableEq

/-- Element-wise aggregate options
(arrow::compute::ElementWiseAggregateOptions). -/
structure ElementWiseAggregateOptions where
  skip_nulls : Bool
deriving DecidableEq

/-- Status codes the facade layer can surface: local validation failures
are Invalid (arrow::Status::Invalid); NotFound and ExecutionError can only
come out of the external registry. -/
inductive StatusCode where
  | Invalid
  | NotFound
  | ExecutionError
deriving DecidableEq

/-- Error status (arrow::Status in its non-ok states): a code plus a
message. -/
structure Status where
  code : StatusCode
  message : String
deriving DecidableEq

/-- Embedding of Status::Invalid. -/
def Status.Invalid (msg : String) : Status :=
  ⟨StatusCode.Invalid, msg⟩

/-- Options record as bound to a registry call.  Arithmetic, boolean,
validity and temporal entry points pass no options pointer to CallFunction,
embedded as FunctionOptions.none. -/
inductive FunctionOptions where
  | none
  | setLookup (o : SetLookupOptions)
  | compare (o : CompareOptions)
  | elementWise (o : ElementWiseAggregateOptions)
deriving DecidableEq

/-- Registry call descriptor: the exact data the facade hands to
CallFunction — resolved function name, ordered Datum arguments, and the
bound options. -/
structure RegCall where
  func_name : String
  args : List Datum
  options : FunctionOptions
deriving DecidableEq

/-- Modelled from the spec: CallFunction (the external registry dispatcher,
declared in arrow/compute/exec.h, not under src/) locates the named kernel
and runs it.  The facade returns its value unchanged, so delegation is
embedded as the successful production of the call descriptor; runWith below
feeds the descriptor to an arbitrary registry. -/
def CallFunction (func_name : String) (args : List Datum)
    (options : FunctionOptions) : Except Status RegCall :=
  Except.ok ⟨func_name, args, options⟩

/-- Abstract external registry: maps a call descriptor to a result Datum or
a failure Status. -/
def Registry : Type :=
  RegCall → Except Status Datum

/-- Sample registry that fails every call with NotFound naming the
requested function, standing in for a registry with no kernel for the
resolved name. -/
def notFoundRegistry : Registry :=
  fun c => Except.error ⟨StatusCode.NotFound, c.func_name⟩

/-- Runs a facade outcome against a registry: a local validation failure is
returned as is, and a delegated call is answered by the registry, its
result or failure returned unchanged — exactly the C++ pattern of a
return of Status or of the CallFunction value. -/
def runWith (reg : Registry) : Except Status RegCall → Except Status Datum
  | .error s => .error s
  | .ok c => reg c

/-- Embedding of the SCALAR_EAGER_UNARY wrapper pattern. -/
def scalarEagerUnary (registry_name : String) (value : Datum) :
    Except Status RegCall :=
  CallFunction registry_name [value] FunctionOptions.none

/-- Embedding of the SCALAR_EAGER_BINARY wrapper pattern. -/
def scalarEagerBinary (registry_name : String) (left right : Datum) :
    Except Status RegCall :=
  CallFunction registry_name [left, right] FunctionOptions.none

/-- Name selection shared by the SCALAR_ARITHMETIC_UNARY and
SCALAR_ARITHMETIC_BINARY wrappers: the checked registry name when
check_overflow is set, else the base registry name.  Total: no failure
path. -/
def arithmeticFuncName (registry_name registry_checked_name : String)
    (options : ArithmeticOptions) : String :=
  if options.check_overflow then registry_checked_name else registry_name

/-- Embedding of the SCALAR_ARITHMETIC_UNARY wrapper pattern. -/
def scalarArithmeticUnary (registry_name registry_checked_name : String)
    (arg : Datum) (options : ArithmeticOptions) : Except Status RegCall :=
  CallFunction (arithmeticFuncName registry_name registry_checked_name options)
    [arg] FunctionOptions.none

/-- Embedding of the SCALAR_ARITHMETIC_BINARY wrapper pattern. -/
def scalarArithmeticBinary (registry_name registry_checked_name : String)
    (left right : Datum) (options : ArithmeticOptions) :
    Except Status RegCall :=
  CallFunction (arithmeticFuncName registry_name registry_checked_name options)
    [left, right] FunctionOptions.none

/-- AbsoluteValue facade entry point. -/
def AbsoluteValue : Datum → ArithmeticOptions → Except Status RegCall :=
  scalarArithmeticUnary "abs" "abs_checked"

/-- Negate facade entry point. -/
def Negate : Datum → ArithmeticOptions → Except Status RegCall :=
  scalarArithmeticUnary "negate" "negate_checked"

/-- Add facade entry point. -/
def Add : Datum → Datum → ArithmeticOptions → Except Status RegCall :=
  scalarArithmeticBinary "add" "add_checked"

/-- Subtract facade entry point. -/
def Subtract : Datum → Datum → ArithmeticOptions → Except Status RegCall :=
  scalarArithmeticBinary "subtract" "subtract_checked"

/-- Multiply facade entry point. -/
def Multiply : Datum → Datum → ArithmeticOptions → Except Status RegCall :=
  scalarArithmeticBinary "multiply" "multiply_checked"

/-- Divide facade entry point. -/
def Divide : Datum → Datum → ArithmeticOptions → Except Status RegCall :=
  scalarArithmeticBinary "divide" "divide_checked"

/-- Power facade entry point. -/
def Power : Datum → Datum → ArithmeticOptions → Except Status RegCall :=
  scalarArithmeticBinary "power" "power_checked"

/-- Table of the seven arithmetic operations that have a checked variant:
base registry name paired with checked registry name, in source order. -/
def arithmeticOpTable : List (String × String) :=
  [("abs", "abs_checked"), ("negate", "negate_checked"),
   ("add", "add_checked"), ("subtract", "subtract_checked"),
   ("multiply", "multiply_checked"), ("divide", "divide_checked"),
   ("power", "power_checked")]

/-- ElementWiseMax facade entry point. -/
def ElementWiseMax (args : List Datum)
    (options : ElementWiseAggregateOptions) : Except Status RegCall :=
  CallFunction "element_wise_max" args (FunctionOptions.elementWise options)

/-- ElementWiseMin facade entry point. -/
def ElementWiseMin (args : List Datum)
    (options : ElementWiseAggregateOptions) : Except Status RegCall :=
  CallFunction "element_wise_min" args (FunctionOptions.elementWise options)

/-- Comparison type of the probe Datum, as computed by the data_type local
of ExecSetLookup: the decoded value type when the probe is
Dictionary-typed, else the probe type itself. -/
def probeComparisonType (data : Datum) : DataType :=
  if data.type.id = TypeId.DICTIONARY then data.type.value_type else data.type

/-- Message of the type-mismatch InvalidArgument built by ExecSetLookup
through its stringstream. -/
def mismatchMsg (data_type value_set_type : DataType) : String :=
  "Array type didn\x27t match type of values set: " ++ data_type.ToString ++
    " vs " ++ value_set_type.ToString

/-- Embedding of ExecSetLookup: reject a non-arraylike value set; compute
the comparison type, unwrapping one dictionary level; reject a nonempty
value set whose type differs from the comparison type; otherwise delegate
to the registry with the given function name. -/
def ExecSetLookup (func_name : String) (data : Datum)
    (options : SetLookupOptions) : Except Status RegCall :=
  if ¬ options.value_set.is_arraylike then
    Except.error (Status.Invalid "Set lookup value set must be Array or ChunkedArray")
  else if options.value_set.length > 0 ∧
      ¬ (probeComparisonType data).Equals options.value_set.type then
    Except.error
      (Status.Invalid (mismatchMsg (probeComparisonType data) options.value_set.type))
  else
    CallFunction func_name [data] (FunctionOptions.setLookup options)

/-- IsIn facade entry point, the overload taking a SetLookupOptions. -/
def IsIn (values : Datum) (options : SetLookupOptions) :
    Except Status RegCall :=
  ExecSetLookup "is_in" values options

/-- IsIn facade entry point, the two-argument convenience overload taking a
bare value-set Datum. -/
def IsInValueSet (values : Datum) (value_set : Datum) :
    Except Status RegCall :=
  ExecSetLookup "is_in" values (SetLookupOptions.ofValueSet value_set)

/-- IndexIn facade entry point, the overload taking a SetLookupOptions. -/
def IndexIn (values : Datum) (options : SetLookupOptions) :
    Except Status RegCall :=
  ExecSetLookup "index_in" values options

/-- IndexIn facade entry point, the two-argument convenience overload
taking a bare value-set Datum. -/
def IndexInValueSet (values : Datum) (value_set : Datum) :
    Except Status RegCall :=
  ExecSetLookup "index_in" values (SetLookupOptions.ofValueSet value_set)

/-- Invert facade entry point. -/
def Invert : Datum → Except Status RegCall :=
  scalarEagerUnary "invert"

/-- And facade entry point. -/
def And : Datum → Datum → Except Status RegCall :=
  scalarEagerBinary "and"

/-- KleeneAnd facade entry point. -/
def KleeneAnd : Datum → Datum → Except Status RegCall :=
  scalarEagerBinary "and_kleene"

/-- Or facade entry point. -/
def Or : Datum → Datum → Except Status RegCall :=
  scalarEagerBinary "or"

/-- KleeneOr facade entry point. -/
def KleeneOr : Datum → Datum → Except Status RegCall :=
  scalarEagerBinary "or_kleene"

/-- Xor facade entry point. -/
def Xor : Datum → Datum → Except Status RegCall :=
  scalarEagerBinary "xor"

/-- AndNot facade entry point. -/
def AndNot : Datum → Datum → Except Status RegCall :=
  scalarEagerBinary "and_not"

/-- KleeneAndNot facade entry point. -/
def KleeneAndNot : Datum → Datum → Except Status RegCall :=
  scalarEagerBinary "and_not_kleene"

/-- Canonical registry name for each comparison operator, as selected by
the exhaustive switch in Compare. -/
def compareOpName : CompareOperator → String
  | .EQUAL => "equal"
  | .NOT_EQUAL => "not_equal"
  | .GREATER => "greater"
  | .GREATER_EQUAL => "greater_equal"
  | .LESS => "less"
  | .LESS_EQUAL => "less_equal"

/-- Compare facade entry point: resolves the canonical name from the
operator and delegates with the options bound. -/
def Compare (left right : Datum) (options : CompareOptions) :
    Except Status RegCall :=
  CallFunction (compareOpName options.op) [left, right]
    (FunctionOptions.compare options)

/-- List of all six comparison operators. -/
def allCompareOperators : List CompareOperator :=
  [.EQUAL, .NOT_EQUAL, .GREATER, .GREATER_EQUAL, .LESS, .LESS_EQUAL]

/-- IsValid facade entry point. -/
def IsValid : Datum → Except Status RegCall :=
  scalarEagerUnary "is_valid"

/-- IsNull facade entry point. -/
def IsNull : Datum → Except Status RegCall :=
  scalarEagerUnary "is_null"

/-- IsNan facade entry point. -/
def IsNan : Datum → Except Status RegCall :=
  scalarEagerUnary "is_nan"

/-- FillNull facade entry point. -/
def FillNull (values fill_value : Datum) : Except Status RegCall :=
  CallFunction "fill_null" [values, fill_value] FunctionOptions.none

/-- IfElse facade entry point. -/
def IfElse (cond if_true if_false : Datum) : Except Status RegCall :=
  CallFunction "if_else" [cond, if_true, if_false] FunctionOptions.none

/-- Year facade entry point. -/
def Year : Datum → Except Status RegCall :=
  scalarEagerUnary "year"

/-- Month facade entry point. -/
def Month : Datum → Except Status RegCall :=
  scalarEagerUnary "month"

/-- Day facade entry point. -/
def Day : Datum → Except Status RegCall :=
  scalarEagerUnary "day"

/-- DayOfWeek facade entry point. -/
def DayOfWeek : Datum → Except Status RegCall :=
  scalarEagerUnary "day_of_week"

/-- DayOfYear facade entry point. -/
def DayOfYear : Datum → Except Status RegCall :=
  scalarEagerUnary "day_of_year"

/-- ISOYear facade entry point. -/
def ISOYear : Datum → Except Status RegCall :=
  scalarEagerUnary "iso_year"

/-- ISOWeek facade entry point. -/
def ISOWeek : Datum → Except Status RegCall :=
  scalarEagerUnary "iso_week"

/-- ISOCalendar facade entry point. -/
def ISOCalendar : Datum → Except Status RegCall :=
  scalarEagerUnary "iso_calendar"

/-- Quarter facade entry point. -/
def Quarter : Datum → Except Status RegCall :=
  scalarEagerUnary "quarter"

/-- Hour facade entry point. -/
def Hour : Datum → Except Status RegCall :=
  scalarEagerUnary "hour"

/-- Minute facade entry point. -/
def Minute : Datum → Except Status RegCall :=
  scalarEagerUnary "minute"

/-- Second facade entry point. -/
def Second : Datum → Except Status RegCall :=
  scalarEagerUnary "second"

/-- Millisecond facade entry point. -/
def Millisecond : Datum → Except Status RegCall :=
  scalarEagerUnary "millisecond"

/-- Microsecond facade entry point. -/
def Microsecond : Datum → Except Status RegCall :=
  scalarEagerUnary "microsecond"

/-- Nanosecond facade entry point. -/
def Nanosecond : Datum → Except Status RegCall :=
  scalarEagerUnary "nanosecond"

/-- Subsecond facade entry point. -/
def Subsecond : Datum → Except Status RegCall :=
  scalarEagerUnary "subsecond"

/-- Helper: ExecSetLookup validates independently of the function name; its
outcome for any name is the outcome for the name is_in with only the
delegated name replaced. -/
theorem execSetLookup_name_map (fn : String) (values : Datum)
    (options : SetLookupOptions) :
    ExecSetLookup fn values options =
      Except.map (fun c => RegCall.mk fn c.args c.options)
        (ExecSetLookup "is_in" values options) := by
  unfold ExecSetLookup
  by_cases h1 : ¬ options.value_set.is_arraylike = true
  · rw [if_pos h1, if_pos h1]
    rfl
  · rw [if_neg h1, if_neg h1]
    by_cases h2 : options.value_set.length > 0 ∧
        ¬ (probeComparisonType values).Equals options.value_set.type = true
    · rw [if_pos h2, if_pos h2]
      rfl
    · rw [if_neg h2, if_neg h2]
      rfl

/-- Helper: when the value set is arraylike and nonempty, ExecSetLookup
reduces to a comparison of the probe comparison type against the value-set
type: equality delegates, inequality produces the mismatch
InvalidArgument. -/
theorem execSetLookup_with_comparison_type (fn : String) (data : Datum)
    (options : SetLookupOptions) (ct : DataType)
    (h1 : options.value_set.is_arraylike = true)
    (h2 : options.value_set.length > 0)
    (hct : probeComparisonType data = ct) :
    ExecSetLookup fn data options =
      if ct.Equals options.value_set.type then
        CallFunction fn [data] (FunctionOptions.setLookup options)
      else
        Except.error (Status.Invalid (mismatchMsg ct options.value_set.type)) := by
  unfold ExecSetLookup
  rw [if_neg (show ¬ ¬ options.value_set.is_arraylike = true by simp [h1]), hct]
  by_cases hv : ct.Equals options.value_set.type = true
  · rw [if_neg (by simp [hv]), if_pos hv]
  · rw [if_pos ⟨h2, hv⟩, if_neg hv]

/-- C3: for each of the seven arithmetic operations with a checked variant
(AbsoluteValue, Negate, Add, Subtract, Multiply, Divide, Power) and every
ArithmeticOptions, the entry point delegates under the name selected by
arithmeticFuncName, a total function that yields the checked name exactly
when check_overflow is true and the base name exactly when it is false. -/
theorem arithmetic_checked_variant_selection :
    (∀ (arg : Datum) (opts : ArithmeticOptions),
      AbsoluteValue arg opts =
        CallFunction (arithmeticFuncName "abs" "abs_checked" opts) [arg]
          FunctionOptions.none ∧
      Negate arg opts =
        CallFunction (arithmeticFuncName "negate" "negate_checked" opts) [arg]
          FunctionOptions.none) ∧
    (∀ (l r : Datum) (opts : ArithmeticOptions),
      Add l r opts =
        CallFunction (arithmeticFuncName "add" "add_checked" opts) [l, r]
          FunctionOptions.none ∧
      Subtract l r opts =
        CallFunction (arithmeticFuncName "subtract" "subtract_checked" opts) [l, r]
          FunctionOptions.none ∧
      Multiply l r opts =
        CallFunction (arithmeticFuncName "multiply" "multiply_checked" opts) [l, r]
          FunctionOptions.none ∧
      Divide l r opts =
        CallFunction (arithmeticFuncName "divide" "divide_checked" opts) [l, r]
          FunctionOptions.none ∧
      Power l r opts =
        CallFunction (arithmeticFuncName "power" "power_checked" opts) [l, r]
          FunctionOptions.none) ∧
    (∀ p ∈ arithmeticOpTable, ∀ opts : ArithmeticOptions,
      (arithmeticFuncName p.1 p.2 opts = p.2 ↔ opts.check_overflow = true) ∧
      (arithmeticFuncName p.1 p.2 opts = p.1 ↔ opts.check_overflow = false)) := by
  refine ⟨fun arg opts => ⟨rfl, rfl⟩, fun l r opts => ⟨rfl, rfl, rfl, rfl, rfl⟩, ?_⟩
  intro p hp opts
  obtain ⟨b⟩ := opts
  simp only [arithmeticOpTable, List.mem_cons, List.not_mem_nil, or_false] at hp
  rcases hp with rfl | rfl | rfl | rfl | rfl | rfl | rfl <;> cases b <;> decide

/-- Witness for C3 at the add operation with check_overflow true. -/
theorem arithmetic_checked_variant_selection_witness :
    ("add", "add_checked") ∈ arithmeticOpTable ∧
    ((arithmeticFuncName "add" "add_checked" ⟨true⟩ = "add_checked" ↔
        ArithmeticOptions.check_overflow ⟨true⟩ = true) ∧
     (arithmeticFuncName "add" "add_checked" ⟨true⟩ = "add" ↔
        ArithmeticOptions.check_overflow ⟨true⟩ = false)) :=
  ⟨by decide,
   arithmetic_checked_variant_selection.2.2 ("add", "add_checked") (by decide) ⟨true⟩⟩

/-- C4: Compare delegates under exactly the canonical name of its operator;
the mapping over the six operators is total and sends no operator to an
empty or duplicate name (the list with the empty string adjoined has no
duplicates). -/
theorem compare_operator_name_mapping :
    (∀ (l r : Datum) (options : CompareOptions),
      Compare l r options =
        CallFunction (compareOpName options.op) [l, r]
          (FunctionOptions.compare options)) ∧
    compareOpName CompareOperator.EQUAL = "equal" ∧
    compareOpName CompareOperator.NOT_EQUAL = "not_equal" ∧
    compareOpName CompareOperator.GREATER = "greater" ∧
    compareOpName CompareOperator.GREATER_EQUAL = "greater_equal" ∧
    compareOpName CompareOperator.LESS = "less" ∧
    compareOpName CompareOperator.LESS_EQUAL = "less_equal" ∧
    (∀ op : CompareOperator, op ∈ allCompareOperators) ∧
    List.Nodup ("" :: allCompareOperators.map compareOpName) := by
  refine ⟨fun l r options => rfl, rfl, rfl, rfl, rfl, rfl, rfl, ?_, ?_⟩
  · intro op
    cases op <;> decide
  · decide

/-- C7: each two-argument convenience overload equals the options-taking
overload applied to the SetLookupOptions built from the value set with the
remaining field defaulted, so the two paths agree on every success and
every failure, also after running any registry. -/
theorem convenience_overload_equivalence :
    (∀ (values value_set : Datum),
      IsInValueSet values value_set =
        IsIn values (SetLookupOptions.ofValueSet value_set) ∧
      IndexInValueSet values value_set =
        IndexIn values (SetLookupOptions.ofValueSet value_set)) ∧
    (∀ (reg : Registry) (values value_set : Datum),
      runWith reg (IsInValueSet values value_set) =
        runWith reg (IsIn values (SetLookupOptions.ofValueSet value_set)) ∧
      runWith reg (IndexInValueSet values value_set) =
        runWith reg (IndexIn values (SetLookupOptions.ofValueSet value_set))) ∧
    (∀ value_set : Datum,
      (SetLookupOptions.ofValueSet value_set).value_set = value_set ∧
      (SetLookupOptions.ofValueSet value_set).skip_nulls = false) :=
  ⟨fun _ _ => ⟨rfl, rfl⟩, fun _ _ _ => ⟨rfl, rfl⟩, fun _ => ⟨rfl, rfl⟩⟩

/-- C8: IsIn and IndexIn are the same shared validator applied under the
names is_in and index_in; each is the image of the other with only the
delegated name replaced, so they fail identically and on success differ
only in the function name of the call descriptor. -/
theorem isin_indexin_identical_validation :
    ∀ (values : Datum) (options : SetLookupOptions),
      IsIn values options = ExecSetLookup "is_in" values options ∧
      IndexIn values options = ExecSetLookup "index_in" values options ∧
      IndexIn values options =
        Except.map (fun c => RegCall.mk "index_in" c.args c.options)
          (IsIn values options) ∧
      IsIn values options =
        Except.map (fun c => RegCall.mk "is_in" c.args c.options)
          (IndexIn values options) ∧
      (∀ s : Status,
        IsIn values options = Except.error s ↔
          IndexIn values options = Except.error s) := by
  intro values options
  have hidx := execSetLookup_name_map "index_in" values options
  have his := execSetLookup_name_map "is_in" values options
  refine ⟨rfl, rfl, ?_, ?_, ?_⟩
  · simp only [IsIn, IndexIn]
    exact hidx
  · simp only [IsIn, IndexIn]
    rw [his, hidx]
    cases ExecSetLookup "is_in" values options <;> rfl
  · intro s
    simp only [IsIn, IndexIn]
    rw [hidx]
    cases ExecSetLookup "is_in" values options <;> simp [Except.map]

/-- C1: with an arraylike, nonempty value set whose type differs from the
probe comparison type, IsIn and IndexIn fail with the InvalidArgument
whose message contains the names of both types, and the failure stands for
every registry: nothing is delegated. -/
theorem set_lookup_type_mismatch_invalid :
    ∀ (data : Datum) (options : SetLookupOptions),
      options.value_set.is_arraylike = true →
      options.value_set.length > 0 →
      (probeComparisonType data).Equals options.value_set.type = false →
      (IsIn data options =
         Except.error (Status.Invalid
           (mismatchMsg (probeComparisonType data) options.value_set.type)) ∧
       IndexIn data options =
         Except.error (Status.Invalid
           (mismatchMsg (probeComparisonType data) options.value_set.type)) ∧
       (∃ p s : String,
         mismatchMsg (probeComparisonType data) options.value_set.type =
           p ++ (probeComparisonType data).ToString ++ s) ∧
       (∃ p s : String,
         mismatchMsg (probeComparisonType data) options.value_set.type =
           p ++ options.value_set.type.ToString ++ s) ∧
       (∀ reg : Registry,
         runWith reg (IsIn data options) =
           Except.error (Status.Invalid
             (mismatchMsg (probeComparisonType data) options.value_set.type)) ∧
         runWith reg (IndexIn data options) =
           Except.error (Status.Invalid
             (mismatchMsg (probeComparisonType data) options.value_set.type)))) := by
  intro data options h1 h2 h3
  have herr : ∀ fn : String,
      ExecSetLookup fn data options =
        Except.error (Status.Invalid
          (mismatchMsg (probeComparisonType data) options.value_set.type)) := by
    intro fn
    rw [execSetLookup_with_comparison_type fn data options
      (probeComparisonType data) h1 h2 rfl, if_neg (by simp [h3])]
  refine ⟨herr "is_in", herr "index_in", ?_, ?_, ?_⟩
  · exact ⟨"Array type didn\x27t match type of values set: ",
      " vs " ++ options.value_set.type.ToString,
      by simp [mismatchMsg, String.append_assoc]⟩
  · exact ⟨"Array type didn\x27t match type of values set: " ++
        (probeComparisonType data).ToString ++ " vs ", "",
      by simp [mismatchMsg, String.append_assoc, String.append_empty]⟩
  · intro reg
    constructor
    · simp only [IsIn]
      rw [herr "is_in"]
      rfl
    · simp only [IndexIn]
      rw [herr "index_in"]
      rfl

/-- Witness for C1: an int32 array probed against a length-5 int64 chunked
array fails with the mismatch message for both IsIn and IndexIn. -/
theorem set_lookup_type_mismatch_invalid_witness :
    (SetLookupOptions.mk (Datum.mk DatumKind.CHUNKED_ARRAY DataType.int64 5)
        false).value_set.is_arraylike = true ∧
    (SetLookupOptions.mk (Datum.mk DatumKind.CHUNKED_ARRAY DataType.int64 5)
        false).value_set.length > 0 ∧
    (probeComparisonType (Datum.mk DatumKind.ARRAY DataType.int32 1)).Equals
      (SetLookupOptions.mk (Datum.mk DatumKind.CHUNKED_ARRAY DataType.int64 5)
        false).value_set.type = false ∧
    (IsIn (Datum.mk DatumKind.ARRAY DataType.int32 1)
        (SetLookupOptions.mk (Datum.mk DatumKind.CHUNKED_ARRAY DataType.int64 5)
          false) =
       Except.error (Status.Invalid
         (mismatchMsg
           (probeComparisonType (Datum.mk DatumKind.ARRAY DataType.int32 1))
           (SetLookupOptions.mk
             (Datum.mk DatumKind.CHUNKED_ARRAY DataType.int64 5)
             false).value_set.type)) ∧
     IndexIn (Datum.mk DatumKind.ARRAY DataType.int32 1)
        (SetLookupOptions.mk (Datum.mk DatumKind.CHUNKED_ARRAY DataType.int64 5)
          false) =
       Except.error (Status.Invalid
         (mismatchMsg
           (probeComparisonType (Datum.mk DatumKind.ARRAY DataType.int32 1))
           (SetLookupOptions.mk
             (Datum.mk DatumKind.CHUNKED_ARRAY DataType.int64 5)
             false).value_set.type)) ∧
     (∃ p s : String,
       mismatchMsg
           (probeComparisonType (Datum.mk DatumKind.ARRAY DataType.int32 1))
           (SetLookupOptions.mk
             (Datum.mk DatumKind.CHUNKED_ARRAY DataType.int64 5)
             false).value_set.type =
         p ++ (probeComparisonType
           (Datum.mk DatumKind.ARRAY DataType.int32 1)).ToString ++ s) ∧
     (∃ p s : String,
       mismatchMsg
           (probeComparisonType (Datum.mk DatumKind.ARRAY DataType.int32 1))
           (SetLookupOptions.mk
             (Datum.mk DatumKind.CHUNKED_ARRAY DataType.int64 5)
             false).value_set.type =
         p ++ (SetLookupOptions.mk
           (Datum.mk DatumKind.CHUNKED_ARRAY DataType.int64 5)
           false).value_set.type.ToString ++ s) ∧
     (∀ reg : Registry,
       runWith reg (IsIn (Datum.mk DatumKind.ARRAY DataType.int32 1)
           (SetLookupOptions.mk
             (Datum.mk DatumKind.CHUNKED_ARRAY DataType.int64 5) false)) =
         Except.error (Status.Invalid
           (mismatchMsg
             (probeComparisonType (Datum.mk DatumKind.ARRAY DataType.int32 1))
             (SetLookupOptions.mk
               (Datum.mk DatumKind.CHUNKED_ARRAY DataType.int64 5)
               false).value_set.type)) ∧
       runWith reg (IndexIn (Datum.mk DatumKind.ARRAY DataType.int32 1)
           (SetLookupOptions.mk
             (Datum.mk DatumKind.CHUNKED_ARRAY DataType.int64 5) false)) =
         Except.error (Status.Invalid
           (mismatchMsg
             (probeComparisonType (Datum.mk DatumKind.ARRAY DataType.int32 1))
             (SetLookupOptions.mk
               (Datum.mk DatumKind.CHUNKED_ARRAY DataType.int64 5)
               false).value_set.type)))) :=
  ⟨by decide, by decide, by decide,
   set_lookup_type_mismatch_invalid (Datum.mk DatumKind.ARRAY DataType.int32 1)
     (SetLookupOptions.mk (Datum.mk DatumKind.CHUNKED_ARRAY DataType.int64 5)
       false)
     (by decide) (by decide) (by decide)⟩

/-- C2: with an arraylike value set of length zero the type check is
skipped entirely: for a probe of any type, IsIn and IndexIn raise no
InvalidArgument and delegate to the registry. -/
theorem set_lookup_empty_value_set_skips_check :
    ∀ (data : Datum) (options : SetLookupOptions),
      options.value_set.is_arraylike = true →
      options.value_set.length = 0 →
      (IsIn data options =
         CallFunction "is_in" [data] (FunctionOptions.setLookup options) ∧
       IndexIn data options =
         CallFunction "index_in" [data] (FunctionOptions.setLookup options) ∧
       (∀ reg : Registry,
         runWith reg (IsIn data options) =
           reg ⟨"is_in", [data], FunctionOptions.setLookup options⟩ ∧
         runWith reg (IndexIn data options) =
           reg ⟨"index_in", [data], FunctionOptions.setLookup options⟩)) := by
  intro data options h1 h2
  have hdeleg : ∀ fn : String,
      ExecSetLookup fn data options =
        CallFunction fn [data] (FunctionOptions.setLookup options) := by
    intro fn
    unfold ExecSetLookup
    rw [if_neg (show ¬ ¬ options.value_set.is_arraylike = true by simp [h1]),
      if_neg (by simp [h2])]
  refine ⟨hdeleg "is_in", hdeleg "index_in", ?_⟩
  intro reg
  constructor
  · simp only [IsIn]
    rw [hdeleg "is_in"]
    rfl
  · simp only [IndexIn]
    rw [hdeleg "index_in"]
    rfl

/-- Witness for C2: a utf8 array probed against an empty int32 array
delegates for both IsIn and IndexIn despite the type mismatch. -/
theorem set_lookup_empty_value_set_skips_check_witness :
    (SetLookupOptions.mk (Datum.mk DatumKind.ARRAY DataType.int32 0)
        false).value_set.is_arraylike = true ∧
    (SetLookupOptions.mk (Datum.mk DatumKind.ARRAY DataType.int32 0)
        false).value_set.length = 0 ∧
    (IsIn (Datum.mk DatumKind.ARRAY DataType.utf8 2)
        (SetLookupOptions.mk (Datum.mk DatumKind.ARRAY DataType.int32 0)
          false) =
       CallFunction "is_in" [Datum.mk DatumKind.ARRAY DataType.utf8 2]
         (FunctionOptions.setLookup
           (SetLookupOptions.mk (Datum.mk DatumKind.ARRAY DataType.int32 0)
             false)) ∧
     IndexIn (Datum.mk DatumKind.ARRAY DataType.utf8 2)
        (SetLookupOptions.mk (Datum.mk DatumKind.ARRAY DataType.int32 0)
          false) =
       CallFunction "index_in" [Datum.mk DatumKind.ARRAY DataType.utf8 2]
         (FunctionOptions.setLookup
           (SetLookupOptions.mk (Datum.mk DatumKind.ARRAY DataType.int32 0)
             false)) ∧
     (∀ reg : Registry,
       runWith reg (IsIn (Datum.mk DatumKind.ARRAY DataType.utf8 2)
           (SetLookupOptions.mk (Datum.mk DatumKind.ARRAY DataType.int32 0)
             false)) =
         reg ⟨"is_in", [Datum.mk DatumKind.ARRAY DataType.utf8 2],
           FunctionOptions.setLookup
             (SetLookupOptions.mk (Datum.mk DatumKind.ARRAY DataType.int32 0)
               false)⟩ ∧
       runWith reg (IndexIn (Datum.mk DatumKind.ARRAY DataType.utf8 2)
           (SetLookupOptions.mk (Datum.mk DatumKind.ARRAY DataType.int32 0)
             false)) =
         reg ⟨"index_in", [Datum.mk DatumKind.ARRAY DataType.utf8 2],
           FunctionOptions.setLookup
             (SetLookupOptions.mk (Datum.mk DatumKind.ARRAY DataType.int32 0)
               false)⟩)) :=
  ⟨by decide, by decide,
   set_lookup_empty_value_set_skips_check
     (Datum.mk DatumKind.ARRAY DataType.utf8 2)
     (SetLookupOptions.mk (Datum.mk DatumKind.ARRAY DataType.int32 0) false)
     (by decide) (by decide)⟩

/-- C6: with a value set that is not arraylike, IsIn and IndexIn and their
convenience overloads fail with the fixed InvalidArgument, independent of
type compatibility and emptiness, and the failure stands for every
registry: nothing is delegated. -/
theorem set_lookup_non_arraylike_invalid :
    ∀ (values : Datum) (options : SetLookupOptions),
      options.value_set.is_arraylike = false →
      (IsIn values options =
         Except.error (Status.Invalid
           "Set lookup value set must be Array or ChunkedArray") ∧
       IndexIn values options =
         Except.error (Status.Invalid
           "Set lookup value set must be Array or ChunkedArray") ∧
       IsInValueSet values options.value_set =
         Except.error (Status.Invalid
           "Set lookup value set must be Array or ChunkedArray") ∧
       IndexInValueSet values options.value_set =
         Except.error (Status.Invalid
           "Set lookup value set must be Array or ChunkedArray") ∧
       (∀ reg : Registry,
         runWith reg (IsIn values options) =
           Except.error (Status.Invalid
             "Set lookup value set must be Array or ChunkedArray") ∧
         runWith reg (IndexIn values options) =
           Except.error (Status.Invalid
             "Set lookup value set must be Array or ChunkedArray"))) := by
  intro values options h1
  have herr : ∀ (fn : String) (opts : SetLookupOptions),
      opts.value_set = options.value_set →
      ExecSetLookup fn values opts =
        Except.error (Status.Invalid
          "Set lookup value set must be Array or ChunkedArray") := by
    intro fn opts hvs
    unfold ExecSetLookup
    rw [if_pos (by simp [hvs, h1])]
  refine ⟨herr "is_in" options rfl, herr "index_in" options rfl,
    herr "is_in" (SetLookupOptions.ofValueSet options.value_set) rfl,
    herr "index_in" (SetLookupOptions.ofValueSet options.value_set) rfl, ?_⟩
  intro reg
  constructor
  · simp only [IsIn]
    rw [herr "is_in" options rfl]
    rfl
  · simp only [IndexIn]
    rw [herr "index_in" options rfl]
    rfl

/-- Witness for C6: an int32 array probed against a scalar value set of the
same int32 type still fails with the non-arraylike InvalidArgument. -/
theorem set_lookup_non_arraylike_invalid_witness :
    (SetLookupOptions.mk (Datum.mk DatumKind.SCALAR DataType.int32 1)
        false).value_set.is_arraylike = false ∧
    (IsIn (Datum.mk DatumKind.ARRAY DataType.int32 3)
        (SetLookupOptions.mk (Datum.mk DatumKind.SCALAR DataType.int32 1)
          false) =
       Except.error (Status.Invalid
         "Set lookup value set must be Array or ChunkedArray") ∧
     IndexIn (Datum.mk DatumKind.ARRAY DataType.int32 3)
        (SetLookupOptions.mk (Datum.mk DatumKind.SCALAR DataType.int32 1)
          false) =
       Except.error (Status.Invalid
         "Set lookup value set must be Array or ChunkedArray") ∧
     IsInValueSet (Datum.mk DatumKind.ARRAY DataType.int32 3)
        (SetLookupOptions.mk (Datum.mk DatumKind.SCALAR DataType.int32 1)
          false).value_set =
       Except.error (Status.Invalid
         "Set lookup value set must be Array or ChunkedArray") ∧
     IndexInValueSet (Datum.mk DatumKind.ARRAY DataType.int32 3)
        (SetLookupOptions.mk (Datum.mk DatumKind.SCALAR DataType.int32 1)
          false).value_set =
       Except.error (Status.Invalid
         "Set lookup value set must be Array or ChunkedArray") ∧
     (∀ reg : Registry,
       runWith reg (IsIn (Datum.mk DatumKind.ARRAY DataType.int32 3)
           (SetLookupOptions.mk (Datum.mk DatumKind.SCALAR DataType.int32 1)
             false)) =
         Except.error (Status.Invalid
           "Set lookup value set must be Array or ChunkedArray") ∧
       runWith reg (IndexIn (Datum.mk DatumKind.ARRAY DataType.int32 3)
           (SetLookupOptions.mk (Datum.mk DatumKind.SCALAR DataType.int32 1)
             false)) =
         Except.error (Status.Invalid
           "Set lookup value set must be Array or ChunkedArray"))) :=
  ⟨by decide,
   set_lookup_non_arraylike_invalid (Datum.mk DatumKind.ARRAY DataType.int32 3)
     (SetLookupOptions.mk (Datum.mk DatumKind.SCALAR DataType.int32 1) false)
     (by decide)⟩

/-- C5: for a Dictionary-typed probe the set-lookup type check compares the
decoded value type of the dictionary against the value-set type, and for a
probe of any other type it compares the probe type itself; in each case
equality delegates and inequality fails with the mismatch
InvalidArgument. -/
theorem set_lookup_dictionary_decoded_type :
    ∀ (fn : String) (data : Datum) (options : SetLookupOptions)
      (i v : DataType) (o : Bool),
      options.value_set.is_arraylike = true →
      options.value_set.length > 0 →
      ((data.type = DataType.dictionary i v o →
        probeComparisonType data = v ∧
        ExecSetLookup fn data options =
          (if v.Equals options.value_set.type then
            CallFunction fn [data] (FunctionOptions.setLookup options)
          else
            Except.error
              (Status.Invalid (mismatchMsg v options.value_set.type)))) ∧
       (data.type.id ≠ TypeId.DICTIONARY →
        probeComparisonType data = data.type ∧
        ExecSetLookup fn data options =
          (if data.type.Equals options.value_set.type then
            CallFunction fn [data] (FunctionOptions.setLookup options)
          else
            Except.error
              (Status.Invalid (mismatchMsg data.type options.value_set.type))))) := by
  intro fn data options i v o h1 h2
  constructor
  · intro hd
    have hct : probeComparisonType data = v := by
      simp [probeComparisonType, hd, DataType.id, DataType.value_type]
    exact ⟨hct, execSetLookup_with_comparison_type fn data options v h1 h2 hct⟩
  · intro hd
    have hct : probeComparisonType data = data.type := by
      simp [probeComparisonType, hd]
    exact ⟨hct, execSetLookup_with_comparison_type fn data options data.type h1 h2 hct⟩

/-- Witness for C5: a probe of type dictionary with utf8 values and int8
indices against a length-3 utf8 array delegates, since the decoded value
type matches; a plain int32 probe against the same utf8 array fails. -/
theorem set_lookup_dictionary_decoded_type_witness :
    (SetLookupOptions.mk (Datum.mk DatumKind.ARRAY DataType.utf8 3)
        false).value_set.is_arraylike = true ∧
    (SetLookupOptions.mk (Datum.mk DatumKind.ARRAY DataType.utf8 3)
        false).value_set.length > 0 ∧
    (Datum.mk DatumKind.ARRAY
        (DataType.dictionary DataType.int8 DataType.utf8 false) 4).type =
      DataType.dictionary DataType.int8 DataType.utf8 false ∧
    (probeComparisonType (Datum.mk DatumKind.ARRAY
        (DataType.dictionary DataType.int8 DataType.utf8 false) 4) =
      DataType.utf8 ∧
     ExecSetLookup "is_in"
        (Datum.mk DatumKind.ARRAY
          (DataType.dictionary DataType.int8 DataType.utf8 false) 4)
        (SetLookupOptions.mk (Datum.mk DatumKind.ARRAY DataType.utf8 3)
          false) =
       (if DataType.Equals DataType.utf8
            (SetLookupOptions.mk (Datum.mk DatumKind.ARRAY DataType.utf8 3)
              false).value_set.type then
          CallFunction "is_in"
            [Datum.mk DatumKind.ARRAY
              (DataType.dictionary DataType.int8 DataType.utf8 false) 4]
            (FunctionOptions.setLookup
              (SetLookupOptions.mk (Datum.mk DatumKind.ARRAY DataType.utf8 3)
                false))
        else
          Except.error
            (Status.Invalid (mismatchMsg DataType.utf8
              (SetLookupOptions.mk (Datum.mk DatumKind.ARRAY DataType.utf8 3)
                false).value_set.type)))) :=
  ⟨by decide, by decide, by decide,
   (set_lookup_dictionary_decoded_type "is_in"
     (Datum.mk DatumKind.ARRAY
       (DataType.dictionary DataType.int8 DataType.utf8 false) 4)
     (SetLookupOptions.mk (Datum.mk DatumKind.ARRAY DataType.utf8 3) false)
     DataType.int8 DataType.utf8 false
     (by decide) (by decide)).1 (by decide)⟩

/-- C10: the dictionary unwrapping is exactly one level deep: for a probe
whose type is a dictionary of dictionaries, the comparison type is the
immediate, still dictionary-typed, value type; comparing against the
innermost value type fails. -/
theorem set_lookup_single_level_dictionary_unwrap :
    ∀ (fn : String) (data : Datum) (options : SetLookupOptions)
      (i i₂ v₂ : DataType) (o o₂ : Bool),
      data.type = DataType.dictionary i (DataType.dictionary i₂ v₂ o₂) o →
      (probeComparisonType data = DataType.dictionary i₂ v₂ o₂ ∧
       (options.value_set.is_arraylike = true →
        options.value_set.length > 0 →
        (ExecSetLookup fn data options =
           (if (DataType.dictionary i₂ v₂ o₂).Equals options.value_set.type then
             CallFunction fn [data] (FunctionOptions.setLookup options)
           else
             Except.error (Status.Invalid
               (mismatchMsg (DataType.dictionary i₂ v₂ o₂)
                 options.value_set.type))) ∧
         (options.value_set.type = v₂ → v₂.id ≠ TypeId.DICTIONARY →
           ExecSetLookup fn data options =
             Except.error (Status.Invalid
               (mismatchMsg (DataType.dictionary i₂ v₂ o₂) v₂)))))) := by
  intro fn data options i i₂ v₂ o o₂ hd
  have hct : probeComparisonType data = DataType.dictionary i₂ v₂ o₂ := by
    simp [probeComparisonType, hd, DataType.id, DataType.value_type]
  refine ⟨hct, ?_⟩
  intro h1 h2
  have hmain := execSetLookup_with_comparison_type fn data options
    (DataType.dictionary i₂ v₂ o₂) h1 h2 hct
  refine ⟨hmain, ?_⟩
  intro hvs hv₂
  have hne : DataType.dictionary i₂ v₂ o₂ ≠ v₂ := by
    intro heq
    apply hv₂
    rw [← heq]
    rfl
  rw [hmain, hvs, if_neg (by simp [DataType.Equals, hne])]

/-- Witness for C10: a probe typed dictionary of a dictionary of utf8
values, compared against a value set typed with the innermost utf8 type,
fails with the mismatch naming the immediate dictionary value type. -/
theorem set_lookup_single_level_dictionary_unwrap_witness :
    (Datum.mk DatumKind.ARRAY
        (DataType.dictionary DataType.int8
          (DataType.dictionary DataType.int16 DataType.utf8 false) false)
        4).type =
      DataType.dictionary DataType.int8
        (DataType.dictionary DataType.int16 DataType.utf8 false) false ∧
    (SetLookupOptions.mk (Datum.mk DatumKind.ARRAY DataType.utf8 2)
        false).value_set.is_arraylike = true ∧
    (SetLookupOptions.mk (Datum.mk DatumKind.ARRAY DataType.utf8 2)
        false).value_set.length > 0 ∧
    (SetLookupOptions.mk (Datum.mk DatumKind.ARRAY DataType.utf8 2)
        false).value_set.type = DataType.utf8 ∧
    DataType.id DataType.utf8 ≠ TypeId.DICTIONARY ∧
    ExecSetLookup "index_in"
        (Datum.mk DatumKind.ARRAY
          (DataType.dictionary DataType.int8
            (DataType.dictionary DataType.int16 DataType.utf8 false) false)
          4)
        (SetLookupOptions.mk (Datum.mk DatumKind.ARRAY DataType.utf8 2)
          false) =
      Except.error (Status.Invalid
        (mismatchMsg
          (DataType.dictionary DataType.int16 DataType.utf8 false)
          DataType.utf8)) :=
  ⟨by decide, by decide, by decide, by decide, by decide,
   (((set_lookup_single_level_dictionary_unwrap "index_in"
       (Datum.mk DatumKind.ARRAY
         (DataType.dictionary DataType.int8
           (DataType.dictionary DataType.int16 DataType.utf8 false) false)
         4)
       (SetLookupOptions.mk (Datum.mk DatumKind.ARRAY DataType.utf8 2) false)
       DataType.int8 DataType.int16 DataType.utf8 false false
       (by decide)).2 (by decide) (by decide)).2 (by decide) (by decide))⟩

/-- C9: for every entry point of the facade and every registry, once local
validation (where any exists) has passed, the result of the call is
exactly the registry result for the resolved name, arguments and bound
options: registry successes and failures alike are returned unchanged,
and local validation failures are returned as they are with no
delegation. -/
theorem facade_delegates_unchanged :
    ∀ reg : Registry,
      (∀ (name : String) (args : List Datum) (fopts : FunctionOptions),
        runWith reg (CallFunction name args fopts) = reg ⟨name, args, fopts⟩) ∧
      (∀ s : Status, runWith reg (Except.error s) = Except.error s) ∧
      (∀ c : RegCall, runWith reg (Except.ok c) = reg c) ∧
      (∀ (name : String) (v : Datum),
        runWith reg (scalarEagerUnary name v) =
          reg ⟨name, [v], FunctionOptions.none⟩) ∧
      (∀ (name : String) (l r : Datum),
        runWith reg (scalarEagerBinary name l r) =
          reg ⟨name, [l, r], FunctionOptions.none⟩) ∧
      (∀ (b c : String) (a : Datum) (opts : ArithmeticOptions),
        runWith reg (scalarArithmeticUnary b c a opts) =
          reg ⟨arithmeticFuncName b c opts, [a], FunctionOptions.none⟩) ∧
      (∀ (b c : String) (l r : Datum) (opts : ArithmeticOptions),
        runWith reg (scalarArithmeticBinary b c l r opts) =
          reg ⟨arithmeticFuncName b c opts, [l, r], FunctionOptions.none⟩) ∧
      (∀ (l r : Datum) (opts : CompareOptions),
        runWith reg (Compare l r opts) =
          reg ⟨compareOpName opts.op, [l, r], FunctionOptions.compare opts⟩) ∧
      (∀ (args : List Datum) (opts : ElementWiseAggregateOptions),
        runWith reg (ElementWiseMax args opts) =
          reg ⟨"element_wise_max", args, FunctionOptions.elementWise opts⟩ ∧
        runWith reg (ElementWiseMin args opts) =
          reg ⟨"element_wise_min", args, FunctionOptions.elementWise opts⟩) ∧
      (∀ values fill_value : Datum,
        runWith reg (FillNull values fill_value) =
          reg ⟨"fill_null", [values, fill_value], FunctionOptions.none⟩) ∧
      (∀ cond if_true if_false : Datum,
        runWith reg (IfElse cond if_true if_false) =
          reg ⟨"if_else", [cond, if_true, if_false], FunctionOptions.none⟩) ∧
      (∀ (fn : String) (data : Datum) (opts : SetLookupOptions) (c : RegCall),
        ExecSetLookup fn data opts = Except.ok c →
          runWith reg (ExecSetLookup fn data opts) = reg c) ∧
      (∀ (fn : String) (data : Datum) (opts : SetLookupOptions) (s : Status),
        ExecSetLookup fn data opts = Except.error s →
          runWith reg (ExecSetLookup fn data opts) = Except.error s) := by
  intro reg
  refine ⟨fun _ _ _ => rfl, fun _ => rfl, fun _ => rfl, fun _ _ => rfl,
    fun _ _ _ => rfl, fun _ _ _ _ => rfl, fun _ _ _ _ _ => rfl,
    fun _ _ _ => rfl, fun _ _ => ⟨rfl, rfl⟩, fun _ _ => rfl,
    fun _ _ _ => rfl, ?_, ?_⟩
  · intro fn data opts c h
    rw [h]
    rfl
  · intro fn data opts s h
    rw [h]
    rfl

/-- Witness for C9 at a registry that fails with NotFound on every call: a
validated IsIn delegation returns the registry failure unchanged. -/
theorem facade_delegates_unchanged_witness :
    ExecSetLookup "is_in" (Datum.mk DatumKind.ARRAY DataType.int32 3)
        (SetLookupOptions.mk (Datum.mk DatumKind.ARRAY DataType.int32 1)
          false) =
      Except.ok ⟨"is_in", [Datum.mk DatumKind.ARRAY DataType.int32 3],
        FunctionOptions.setLookup
          (SetLookupOptions.mk (Datum.mk DatumKind.ARRAY DataType.int32 1)
            false)⟩ ∧
    runWith notFoundRegistry
        (ExecSetLookup "is_in" (Datum.mk DatumKind.ARRAY DataType.int32 3)
          (SetLookupOptions.mk (Datum.mk DatumKind.ARRAY DataType.int32 1)
            false)) =
      notFoundRegistry
        ⟨"is_in", [Datum.mk DatumKind.ARRAY DataType.int32 3],
          FunctionOptions.setLookup
            (SetLookupOptions.mk (Datum.mk DatumKind.ARRAY DataType.int32 1)
              false)⟩ :=
  ⟨by rfl,
   (facade_delegates_unchanged notFoundRegistry).2.2.2.2.2.2.2.2.2.2.2.1
     "is_in" (Datum.mk DatumKind.ARRAY DataType.int32 3)
     (SetLookupOptions.mk (Datum.mk DatumKind.ARRAY DataType.int32 1) false)
     ⟨"is_in", [Datum.mk DatumKind.ARRAY DataType.int32 3],
       FunctionOptions.setLookup
         (SetLookupOptions.mk (Datum.mk DatumKind.ARRAY DataType.int32 1)
           false)⟩
     (by rfl)⟩

end ArrowCompute
